import Mathlib

/-!
Verification of `src/rigid_body_publisher.cpp` from the mocap_optitrack
repository: the coordinate adapter `utilities::getRosPose`, the per-body
`RigidBodyPublisher` (guards and sink fan-out), and the
`RigidBodyPublishDispatcher` (ID -> publisher map and batch dispatch).

Scalars are modelled as rationals extended with a NaN element, which is
faithful to the IEEE behaviour of the only operations the code performs on
them: copies, negation, and the self-inequality NaN test `x != x`.
-/

/-- A scalar of the embedded program: a rational value or NaN. The C++ code
only copies scalars, negates them, and tests `x != x`, and for those
operations this model agrees with IEEE doubles. -/
inductive Fl where
  | val : ℚ → Fl
  | nan : Fl
deriving DecidableEq

/-- IEEE negation: negates a value, maps NaN to NaN. -/
def Fl.neg : Fl → Fl
  | .val q => .val (-q)
  | .nan => .nan

instance : Neg Fl := ⟨Fl.neg⟩

/-- IEEE addition restricted to this model: NaN absorbs. -/
def Fl.add : Fl → Fl → Fl
  | .val a, .val b => .val (a + b)
  | _, _ => .nan

instance : Add Fl := ⟨Fl.add⟩

/-- IEEE multiplication restricted to this model: NaN absorbs. -/
def Fl.mul : Fl → Fl → Fl
  | .val a, .val b => .val (a * b)
  | _, _ => .nan

instance : Mul Fl := ⟨Fl.mul⟩

/-- IEEE subtraction restricted to this model: NaN absorbs. -/
def Fl.sub : Fl → Fl → Fl
  | .val a, .val b => .val (a - b)
  | _, _ => .nan

instance : Sub Fl := ⟨Fl.sub⟩

instance (n : Nat) : OfNat Fl n := ⟨Fl.val (n : ℚ)⟩

/-- The IEEE `!=` comparison: NaN compares unequal to everything,
including itself; two values compare by rational inequality. -/
def Fl.ne : Fl → Fl → Bool
  | .val a, .val b => decide (a ≠ b)
  | _, _ => true

/-- Whether a scalar is the NaN element. -/
def Fl.isNaN : Fl → Bool
  | .val _ => false
  | .nan => true

/-- `geometry_msgs::msg::Point`: a 3D position. -/
structure Point where
  x : Fl
  y : Fl
  z : Fl
deriving DecidableEq

/-- `geometry_msgs::msg::Quaternion`: an orientation quaternion (named
`QuaternionMsg` here to avoid clashing with Mathlib's `Quaternion`). -/
structure QuaternionMsg where
  x : Fl
  y : Fl
  z : Fl
  w : Fl
deriving DecidableEq

/-- `geometry_msgs::msg::Pose`: position plus orientation. -/
structure Pose where
  position : Point
  orientation : QuaternionMsg
deriving DecidableEq

/-- A ROS message header: timestamp and frame id. Time is modelled as a
rational; the code only copies it. -/
structure Header where
  stamp : ℚ
  frame_id : String
deriving DecidableEq

/-- `geometry_msgs::msg::PoseStamped`. Default construction zeroes the
stamp and empties the frame id. -/
structure PoseStamped where
  header : Header
  pose : Pose
deriving DecidableEq

/-- `geometry_msgs::msg::Pose2D`. -/
structure Pose2D where
  x : Fl
  y : Fl
  theta : Fl
deriving DecidableEq

/-- `geometry_msgs::msg::Vector3` (named `Vector3Msg` here to avoid
clashing with Mathlib's `Vector3`). -/
structure Vector3Msg where
  x : Fl
  y : Fl
  z : Fl
deriving DecidableEq

/-- `geometry_msgs::msg::Transform`. -/
structure Transform where
  translation : Vector3Msg
  rotation : QuaternionMsg
deriving DecidableEq

/-- `geometry_msgs::msg::TransformStamped`. -/
structure TransformStamped where
  header : Header
  child_frame_id : String
  transform : Transform
deriving DecidableEq

/-- `geometry_msgs::msg::Twist`: linear and angular velocity. -/
structure Twist where
  linear : Vector3Msg
  angular : Vector3Msg
deriving DecidableEq

/-- `geometry_msgs::msg::TwistWithCovariance`: a twist plus a 6x6
covariance matrix stored as a row-major list of 36 entries. -/
structure TwistWithCovariance where
  twist : Twist
  covariance : List Fl
deriving DecidableEq

/-- `geometry_msgs::msg::PoseWithCovariance`: a pose plus a 6x6 covariance
matrix stored as a row-major list of 36 entries. -/
structure PoseWithCovariance where
  pose : Pose
  covariance : List Fl
deriving DecidableEq

/-- `nav_msgs::msg::Odometry`. -/
structure Odometry where
  header : Header
  child_frame_id : String
  pose : PoseWithCovariance
  twist : TwistWithCovariance
deriving DecidableEq

/-- The zero-initialized `TwistWithCovariance`, as produced by
`rosidl_runtime_cpp::MessageInitialization::ALL`. -/
def zeroTwistWithCovariance : TwistWithCovariance :=
  { twist := { linear := ⟨0, 0, 0⟩, angular := ⟨0, 0, 0⟩ },
    covariance := List.replicate 36 (0 : Fl) }

/-- Modelled from the spec: the `RigidBody` sample type is declared in a
header that is not under `src/`. Per the spec's data model it carries an
integer identifier, a pose (position + orientation), and a validity flag. -/
structure RigidBody where
  bodyId : Int
  pose : Pose
  isValid : Bool
deriving DecidableEq

/-- Modelled from the spec: `RigidBody::hasValidData` is declared outside
`src/`; per the spec it reports the sample's validity flag. -/
def RigidBody.hasValidData (b : RigidBody) : Bool := b.isValid

/-- Modelled from the spec: the `Version` type is declared outside `src/`.
Per the spec it is "a comparable version tag", modelled as a
major.minor pair compared lexicographically. -/
structure Version where
  major : Nat
  minor : Nat
deriving DecidableEq

/-- Lexicographic comparison of version tags. -/
def Version.le (a b : Version) : Bool :=
  decide (a.major < b.major) || (decide (a.major = b.major) && decide (a.minor ≤ b.minor))

/-- `a >= b` on version tags. -/
def Version.ge (a b : Version) : Bool := Version.le b a

/-- The version literal `Version("1.7")` appearing in the constructor. -/
def version1_7 : Version := ⟨1, 7⟩

/-- The pose transformation inside `utilities::getRosPose`: with the new
(Motive 1.7+) coordinates the pose is copied component by component;
otherwise y and z are swapped with a sign flip (new y = -old z,
new z = old y), identically on position and orientation. -/
def adaptPose (pose : Pose) (newCoordinates : Bool) : Pose :=
  if newCoordinates then
    { position := { x := pose.position.x, y := pose.position.y, z := pose.position.z },
      orientation := { x := pose.orientation.x, y := pose.orientation.y,
                       z := pose.orientation.z, w := pose.orientation.w } }
  else
    { position := { x := pose.position.x, y := Fl.neg pose.position.z, z := pose.position.y },
      orientation := { x := pose.orientation.x, y := Fl.neg pose.orientation.z,
                       z := pose.orientation.y, w := pose.orientation.w } }

/-- `mocap_optitrack::utilities::getRosPose`: builds a default
`PoseStamped` and fills its pose from the body according to the
coordinate-convention flag. -/
def getRosPose (body : RigidBody) (newCoordinates : Bool) : PoseStamped :=
  { header := { stamp := 0, frame_id := "" }, pose := adaptPose body.pose newCoordinates }

/-- The per-body `PublisherConfiguration`: sink-enable flags, channel
names, frame labels, and the rigid body identifier. -/
structure PublisherConfiguration where
  rigidBodyId : Int
  publishPose : Bool
  publishPose2d : Bool
  publishOdom : Bool
  publishTf : Bool
  poseTopicName : String
  pose2dTopicName : String
  odomTopicName : String
  parentFrameId : String
  childFrameId : String
deriving DecidableEq

/-- The state of a `RigidBodyPublisher`: its configuration snapshot and
the coordinate-convention flag resolved at construction. Sink handles are
part of the middleware and carry no state of their own here. -/
structure RigidBodyPublisher where
  config : PublisherConfiguration
  useNewCoordinates : Bool
deriving DecidableEq

/-- The `RigidBodyPublisher` constructor: stores the configuration and
resolves `useNewCoordinates = (natNetVersion >= Version("1.7"))`. -/
def mkRigidBodyPublisher (natNetVersion : Version)
    (config : PublisherConfiguration) : RigidBodyPublisher :=
  { config := config, useNewCoordinates := Version.ge natNetVersion version1_7 }

/-- Modelled from the spec: `tf2::getYaw` lives in the external tf2
library, not in this repository. Per the spec it is the "standard
atan2-based yaw" extraction, rotation about Z:
`atan2(2(qw qz + qx qy), 1 - 2(qy^2 + qz^2))`. The transcendental `atan2`
primitive itself is passed as a parameter since it has no exact
counterpart on the scalar model. -/
def getYaw (atan2 : Fl → Fl → Fl) (q : QuaternionMsg) : Fl :=
  atan2 (2 * (q.w * q.z + q.x * q.y)) (1 - 2 * (q.y * q.y + q.z * q.z))

/-- The observable output of one `RigidBodyPublisher::publish` call: the
message emitted on each of the four sinks, or `none` when that sink stays
silent. -/
structure PublishOutput where
  poseMsg : Option PoseStamped
  pose2dMsg : Option Pose2D
  odomMsg : Option Odometry
  tfMsg : Option TransformStamped
deriving DecidableEq

/-- The silent output: no message on any sink. -/
def PublishOutput.empty : PublishOutput := ⟨none, none, none, none⟩

/-- `RigidBodyPublisher::publish`: returns without output when
`hasValidData()` is false or when `position.x != position.x` (the NaN
idiom); otherwise adapts the pose via `getRosPose` and emits on each
sink whose configuration flag is set. `atan2` is the transcendental
primitive used by the yaw extraction of the 2D-pose sink. -/
def RigidBodyPublisher.publish (pub : RigidBodyPublisher) (atan2 : Fl → Fl → Fl)
    (time : ℚ) (body : RigidBody) : PublishOutput :=
  if !body.hasValidData then PublishOutput.empty
  else if Fl.ne body.pose.position.x body.pose.position.x then PublishOutput.empty
  else
    let pose0 := getRosPose body pub.useNewCoordinates
    let pose : PoseStamped := { pose0 with header := { pose0.header with stamp := time } }
    let poseMsg : Option PoseStamped :=
      if pub.config.publishPose then
        some { pose with header := { pose.header with frame_id := pub.config.parentFrameId } }
      else none
    let q : QuaternionMsg := { x := pose.pose.orientation.x, y := pose.pose.orientation.y,
                               z := pose.pose.orientation.z, w := pose.pose.orientation.w }
    let pose2dMsg : Option Pose2D :=
      if pub.config.publishPose2d then
        some { x := pose.pose.position.x, y := pose.pose.position.y,
               theta := getYaw atan2 q }
      else none
    let odomMsg : Option Odometry :=
      if pub.config.publishOdom then
        let poseCovarianceDiagonal : List Fl := List.replicate 6 (0 : Fl)
        some { header := { stamp := time, frame_id := pub.config.parentFrameId },
               child_frame_id := pub.config.childFrameId,
               pose := { pose := { position := { x := pose.pose.position.x,
                                                 y := pose.pose.position.y,
                                                 z := pose.pose.position.z },
                                   orientation := { x := pose.pose.orientation.x,
                                                    y := pose.pose.orientation.y,
                                                    z := pose.pose.orientation.z,
                                                    w := pose.pose.orientation.w } },
                         covariance :=
                           (List.range 6).foldl
                             (fun cov index =>
                               cov.set (6 * index + index) (poseCovarianceDiagonal.getD index 0))
                             (List.replicate 36 (0 : Fl)) },
               twist := zeroTwistWithCovariance }
      else none
    let tfMsg : Option TransformStamped :=
      if pub.config.publishTf then
        some { header := { stamp := time, frame_id := pub.config.parentFrameId },
               child_frame_id := pub.config.childFrameId,
               transform := { rotation := pose.pose.orientation,
                              translation := { x := pose.pose.position.x,
                                               y := pose.pose.position.y,
                                               z := pose.pose.position.z } } }
      else none
    { poseMsg := poseMsg, pose2dMsg := pose2dMsg, odomMsg := odomMsg, tfMsg := tfMsg }

/-- `std::map::operator[]` followed by assignment: replace the value of an
existing key in place, or append a fresh entry at the end. -/
def mapInsert (m : List (Int × RigidBodyPublisher)) (k : Int)
    (v : RigidBodyPublisher) : List (Int × RigidBodyPublisher) :=
  match m with
  | [] => [(k, v)]
  | (k', v') :: rest =>
    if k' = k then (k', v) :: rest else (k', v') :: mapInsert rest k v

/-- `std::map::find`: the value stored at a key, if any. -/
def mapFind (m : List (Int × RigidBodyPublisher)) (k : Int) : Option RigidBodyPublisher :=
  match m with
  | [] => none
  | (k', v') :: rest => if k' = k then some v' else mapFind rest k

/-- The keys of the map, in storage order. -/
def mapKeys (m : List (Int × RigidBodyPublisher)) : List Int := m.map Prod.fst

/-- The state of a `RigidBodyPublishDispatcher`: its rigid-body-ID to
publisher map. -/
structure RigidBodyPublishDispatcher where
  rigidBodyPublisherMap : List (Int × RigidBodyPublisher)

/-- The `RigidBodyPublishDispatcher` constructor: for each configuration
in order, `rigidBodyPublisherMap[config.rigidBodyId] = new
RigidBodyPublisher(node, natNetVersion, config)`. -/
def mkRigidBodyPublishDispatcher (natNetVersion : Version)
    (configs : List PublisherConfiguration) : RigidBodyPublishDispatcher :=
  ⟨configs.foldl
    (fun m config => mapInsert m config.rigidBodyId (mkRigidBodyPublisher natNetVersion config))
    []⟩

/-- `RigidBodyPublishDispatcher::publish`: walk the batch in order; for
each body whose id is in the map, invoke that publisher's `publish`. The
result is the trace of invocations: the body id together with the
publisher's output, in batch order. -/
def RigidBodyPublishDispatcher.publish (d : RigidBodyPublishDispatcher)
    (atan2 : Fl → Fl → Fl) (time : ℚ) (rigidBodies : List RigidBody) :
    List (Int × PublishOutput) :=
  match rigidBodies with
  | [] => []
  | body :: rest =>
    match mapFind d.rigidBodyPublisherMap body.bodyId with
    | some pub => (body.bodyId, pub.publish atan2 time body) :: d.publish atan2 time rest
    | none => d.publish atan2 time rest

/-- Specification-side description of the overwrite semantics of the
dispatcher constructor: the last configuration in list order whose rigid
body identifier is the given one, if any. -/
def lastConfigFor (configs : List PublisherConfiguration) (id : Int) :
    Option PublisherConfiguration :=
  configs.foldl (fun acc config => if config.rigidBodyId = id then some config else acc) none

/-- A concrete valid sample used to instantiate the hypothesis-bearing
theorems. -/
def sampleBody : RigidBody :=
  { bodyId := 1,
    pose := { position := { x := Fl.val 1, y := Fl.val 2, z := Fl.val 3 },
              orientation := { x := Fl.val 0, y := Fl.val 0, z := Fl.val 0, w := Fl.val 1 } },
    isValid := true }

/-- A concrete configuration with every sink disabled. -/
def allOffConfig : PublisherConfiguration :=
  { rigidBodyId := 1, publishPose := false, publishPose2d := false, publishOdom := false,
    publishTf := false, poseTopicName := "", pose2dTopicName := "", odomTopicName := "",
    parentFrameId := "", childFrameId := "" }

/-- A concrete configuration with every sink enabled. -/
def allOnConfig : PublisherConfiguration :=
  { rigidBodyId := 1, publishPose := true, publishPose2d := true, publishOdom := true,
    publishTf := true, poseTopicName := "pose", pose2dTopicName := "ground_pose",
    odomTopicName := "odom", parentFrameId := "world", childFrameId := "base_link" }

/-- A concrete publisher over `allOnConfig` using the old coordinate
convention. -/
def allOnPub : RigidBodyPublisher := { config := allOnConfig, useNewCoordinates := false }

/-- `x != x` is exactly the NaN test: this is the idiom the C++ code uses. -/
theorem Fl.ne_self (a : Fl) : Fl.ne a a = Fl.isNaN a := by
  cases a <;> simp [Fl.ne, Fl.isNaN]

/-- Negation is an involution on scalars, NaN included. -/
theorem Fl.neg_neg_eq (a : Fl) : Fl.neg (Fl.neg a) = a := by
  cases a <;> simp [Fl.neg]

/-- C1: with the new-coordinates flag false the adapter returns position
(x, -z, y) and orientation (qx, -qz, qy, qw): the same y/z swap with sign
flip on both position and orientation. -/
theorem getRosPose_old_coordinates (body : RigidBody) :
    (getRosPose body false).pose =
      { position := { x := body.pose.position.x,
                      y := Fl.neg body.pose.position.z,
                      z := body.pose.position.y },
        orientation := { x := body.pose.orientation.x,
                         y := Fl.neg body.pose.orientation.z,
                         z := body.pose.orientation.y,
                         w := body.pose.orientation.w } } := rfl

/-- C2: with the new-coordinates flag true the adapter returns the input
pose unchanged, every position and orientation component equal. -/
theorem getRosPose_new_coordinates (body : RigidBody) :
    (getRosPose body true).pose = body.pose := rfl

/-- C9: for both values of the convention flag the adapter leaves the
position x component and the orientation w component unchanged. -/
theorem getRosPose_fixes_x_and_w (body : RigidBody) (newCoordinates : Bool) :
    (getRosPose body newCoordinates).pose.position.x = body.pose.position.x ∧
    (getRosPose body newCoordinates).pose.orientation.w = body.pose.orientation.w := by
  cases newCoordinates <;> exact ⟨rfl, rfl⟩

/-- C10: the old-convention component swap has order four: applied four
times it is the identity, and applied twice it negates the y and z
components of position and orientation while fixing x and w. -/
theorem adaptPose_old_order_four (p : Pose) :
    adaptPose (adaptPose (adaptPose (adaptPose p false) false) false) false = p ∧
    adaptPose (adaptPose p false) false =
      { position := { x := p.position.x, y := Fl.neg p.position.y, z := Fl.neg p.position.z },
        orientation := { x := p.orientation.x, y := Fl.neg p.orientation.y,
                         z := Fl.neg p.orientation.z, w := p.orientation.w } } := by
  obtain ⟨⟨px, py, pz⟩, ⟨qx, qy, qz, qw⟩⟩ := p
  constructor <;> simp [adaptPose, Fl.neg_neg_eq]

/-- C3 counterexample: a publisher whose configuration disables every sink
emits nothing even for a valid sample with non-NaN position x, so "no
message on any sink iff invalid or NaN x" fails in the only-if direction. -/
theorem publish_silent_despite_valid :
    RigidBodyPublisher.publish { config := allOffConfig, useNewCoordinates := false }
        (fun a _ => a) 0 sampleBody = PublishOutput.empty ∧
    sampleBody.hasValidData = true ∧
    Fl.isNaN sampleBody.pose.position.x = false := by
  refine ⟨?_, rfl, rfl⟩
  decide

/-- C3 amended: for a publisher with at least one sink enabled, a publish
call emits no message on any sink exactly when the sample's validity flag
is false or its position x is NaN; in particular no other component is
checked, since any sample passing those two guards produces output. -/
theorem publish_empty_iff (pub : RigidBodyPublisher) (atan2 : Fl → Fl → Fl)
    (time : ℚ) (body : RigidBody)
    (h : pub.config.publishPose = true ∨ pub.config.publishPose2d = true ∨
         pub.config.publishOdom = true ∨ pub.config.publishTf = true) :
    pub.publish atan2 time body = PublishOutput.empty ↔
      (body.hasValidData = false ∨ Fl.isNaN body.pose.position.x = true) := by
  unfold RigidBodyPublisher.publish
  rw [Fl.ne_self]
  cases hv : body.hasValidData with
  | false => simp
  | true =>
    cases hn : Fl.isNaN body.pose.position.x with
    | true => simp
    | false =>
      simp only [Bool.not_true, Bool.false_eq_true, if_false, Bool.true_eq_false, or_self,
        iff_false]
      intro heq
      rcases h with h | h | h | h
      · have := congrArg PublishOutput.poseMsg heq
        simp [h, PublishOutput.empty] at this
      · have := congrArg PublishOutput.pose2dMsg heq
        simp [h, PublishOutput.empty] at this
      · have := congrArg PublishOutput.odomMsg heq
        simp [h, PublishOutput.empty] at this
      · have := congrArg PublishOutput.tfMsg heq
        simp [h, PublishOutput.empty] at this

/-- C3 witness: the amended equivalence instantiated at a concrete
publisher with all sinks enabled and a concrete valid sample. -/
theorem publish_empty_iff_witness :
    (allOnPub.config.publishPose = true ∨ allOnPub.config.publishPose2d = true ∨
     allOnPub.config.publishOdom = true ∨ allOnPub.config.publishTf = true) ∧
    (allOnPub.publish (fun a _ => a) 0 sampleBody = PublishOutput.empty ↔
      (sampleBody.hasValidData = false ∨ Fl.isNaN sampleBody.pose.position.x = true)) :=
  ⟨Or.inl rfl, publish_empty_iff allOnPub (fun a _ => a) 0 sampleBody (Or.inl rfl)⟩

/-- C4: dispatch walks the batch in order and its invocation trace is
exactly the in-order filter-map of the samples: a sample whose id is in
the map is forwarded to exactly that publisher, one whose id is absent
contributes nothing. -/
theorem dispatcher_publish_trace (d : RigidBodyPublishDispatcher)
    (atan2 : Fl → Fl → Fl) (time : ℚ) (rigidBodies : List RigidBody) :
    d.publish atan2 time rigidBodies =
      rigidBodies.filterMap (fun body =>
        (mapFind d.rigidBodyPublisherMap body.bodyId).map
          (fun pub => (body.bodyId, pub.publish atan2 time body))) := by
  induction rigidBodies with
  | nil => rfl
  | cons body rest ih =>
    unfold RigidBodyPublishDispatcher.publish
    cases hfind : mapFind d.rigidBodyPublisherMap body.bodyId <;>
      simp [List.filterMap_cons, hfind, ih]

/-- C5: when the sample passes both guards and the odometry sink is
enabled, the emitted odometry message has an all-zero 6x6 pose covariance
and a default-initialized all-zero twist, whatever the sample. -/
theorem publish_odom_covariance_zero (pub : RigidBodyPublisher) (atan2 : Fl → Fl → Fl)
    (time : ℚ) (body : RigidBody)
    (hval : body.hasValidData = true)
    (hnan : Fl.isNaN body.pose.position.x = false)
    (hodom : pub.config.publishOdom = true) :
    ∃ msg : Odometry,
      (pub.publish atan2 time body).odomMsg = some msg ∧
      msg.pose.covariance = List.replicate 36 (0 : Fl) ∧
      msg.twist = zeroTwistWithCovariance := by
  unfold RigidBodyPublisher.publish
  rw [Fl.ne_self]
  simp only [hval, hnan, hodom, Bool.not_true, Bool.false_eq_true, if_false, if_true]
  refine ⟨_, rfl, ?_, rfl⟩
  show (List.range 6).foldl
      (fun cov index => cov.set (6 * index + index) ((List.replicate 6 (0 : Fl)).getD index 0))
      (List.replicate 36 (0 : Fl)) = List.replicate 36 (0 : Fl)
  decide

/-- C5 witness: the odometry covariance theorem instantiated at a concrete
publisher and sample. -/
theorem publish_odom_covariance_zero_witness :
    sampleBody.hasValidData = true ∧
    Fl.isNaN sampleBody.pose.position.x = false ∧
    allOnPub.config.publishOdom = true ∧
    ∃ msg : Odometry,
      (allOnPub.publish (fun a _ => a) 0 sampleBody).odomMsg = some msg ∧
      msg.pose.covariance = List.replicate 36 (0 : Fl) ∧
      msg.twist = zeroTwistWithCovariance :=
  ⟨rfl, rfl, rfl,
    publish_odom_covariance_zero allOnPub (fun a _ => a) 0 sampleBody rfl rfl rfl⟩

/-- C6: when the sample passes both guards and the planar-pose sink is
enabled, the emitted 2D pose carries the adapter's x and y position and a
theta equal to the atan2-based yaw of the adapter's orientation
quaternion. -/
theorem publish_pose2d_fields (pub : RigidBodyPublisher) (atan2 : Fl → Fl → Fl)
    (time : ℚ) (body : RigidBody)
    (hval : body.hasValidData = true)
    (hnan : Fl.isNaN body.pose.position.x = false)
    (h2d : pub.config.publishPose2d = true) :
    (pub.publish atan2 time body).pose2dMsg =
      some { x := (getRosPose body pub.useNewCoordinates).pose.position.x,
             y := (getRosPose body pub.useNewCoordinates).pose.position.y,
             theta := getYaw atan2 (getRosPose body pub.useNewCoordinates).pose.orientation } := by
  unfold RigidBodyPublisher.publish
  rw [Fl.ne_self]
  simp only [hval, hnan, h2d, Bool.not_true, Bool.false_eq_true, if_false, if_true]

/-- C6 witness: the planar-pose theorem instantiated at a concrete
publisher and sample. -/
theorem publish_pose2d_fields_witness :
    sampleBody.hasValidData = true ∧
    Fl.isNaN sampleBody.pose.position.x = false ∧
    allOnPub.config.publishPose2d = true ∧
    (allOnPub.publish (fun a _ => a) 0 sampleBody).pose2dMsg =
      some { x := (getRosPose sampleBody allOnPub.useNewCoordinates).pose.position.x,
             y := (getRosPose sampleBody allOnPub.useNewCoordinates).pose.position.y,
             theta := getYaw (fun a _ => a)
               (getRosPose sampleBody allOnPub.useNewCoordinates).pose.orientation } :=
  ⟨rfl, rfl, rfl, publish_pose2d_fields allOnPub (fun a _ => a) 0 sampleBody rfl rfl rfl⟩

/-- C7: the constructor resolves the coordinate convention exactly once
from the version tag, as the comparison with version 1.7; every publish
call then behaves as the publisher whose convention flag is that resolved
value, so later calls use the same unchanged convention. -/
theorem useNewCoordinates_resolved_at_construction (v : Version)
    (config : PublisherConfiguration) :
    (mkRigidBodyPublisher v config).useNewCoordinates = Version.ge v version1_7 ∧
    ∀ (atan2 : Fl → Fl → Fl) (time : ℚ) (body : RigidBody),
      (mkRigidBodyPublisher v config).publish atan2 time body =
        RigidBodyPublisher.publish
          { config := config, useNewCoordinates := Version.ge v version1_7 }
          atan2 time body :=
  ⟨rfl, fun _ _ _ => rfl⟩

/-- Looking up after an overwrite-insert sees the new value at the
inserted key and the old map elsewhere. -/
theorem mapFind_mapInsert (m : List (Int × RigidBodyPublisher)) (k id : Int)
    (v : RigidBodyPublisher) :
    mapFind (mapInsert m k v) id = if k = id then some v else mapFind m id := by
  induction m with
  | nil => rfl
  | cons entry rest ih =>
    obtain ⟨k', v'⟩ := entry
    by_cases hk : k' = k
    · subst hk
      by_cases hid : k' = id <;> simp [mapInsert, mapFind, hid]
    · by_cases hid : k' = id
      · subst hid
        have hk' : ¬k = k' := fun h => hk h.symm
        simp [mapInsert, mapFind, hk, hk']
      · simp [mapInsert, mapFind, hk, hid, ih]

/-- The keys of the empty map. -/
theorem mapKeys_nil : mapKeys [] = [] := rfl

/-- The keys of a non-empty map. -/
theorem mapKeys_cons (e : Int × RigidBodyPublisher) (rest : List (Int × RigidBodyPublisher)) :
    mapKeys (e :: rest) = e.1 :: mapKeys rest := rfl

/-- Overwrite-insert keeps the keys when the key is present and appends it
at the end otherwise. -/
theorem mapKeys_mapInsert (m : List (Int × RigidBodyPublisher)) (k : Int)
    (v : RigidBodyPublisher) :
    mapKeys (mapInsert m k v) =
      if k ∈ mapKeys m then mapKeys m else mapKeys m ++ [k] := by
  induction m with
  | nil => simp [mapInsert, mapKeys]
  | cons entry rest ih =>
    obtain ⟨k', v'⟩ := entry
    by_cases hk : k' = k
    · subst hk
      simp [mapInsert, mapKeys_cons, List.mem_cons]
    · have hkk' : ¬k = k' := fun h => hk h.symm
      simp only [mapInsert, hk, if_false, mapKeys_cons, List.mem_cons]
      rw [ih]
      by_cases hmem : k ∈ mapKeys rest
      · simp [hmem, hkk']
      · simp [hmem, hkk']

/-- Overwrite-insert preserves distinctness of the stored keys. -/
theorem nodup_mapKeys_mapInsert (m : List (Int × RigidBodyPublisher)) (k : Int)
    (v : RigidBodyPublisher) (h : (mapKeys m).Nodup) :
    (mapKeys (mapInsert m k v)).Nodup := by
  rw [mapKeys_mapInsert]
  by_cases hmem : k ∈ mapKeys m
  · simpa [hmem] using h
  · simp [hmem, List.nodup_append, h]

/-- Changing the seed of the last-match fold only matters when no
configuration in the list matches. -/
theorem lastConfigFor_foldl_seed (configs : List PublisherConfiguration) (id : Int)
    (init : Option PublisherConfiguration) :
    configs.foldl (fun acc config => if config.rigidBodyId = id then some config else acc) init =
      match lastConfigFor configs id with
      | some c => some c
      | none => init := by
  induction configs generalizing init with
  | nil => rfl
  | cons c cs ih =>
    rw [lastConfigFor, List.foldl_cons, List.foldl_cons]
    rw [ih, ih (if c.rigidBodyId = id then some c else none)]
    cases lastConfigFor cs id <;> by_cases hc : c.rigidBodyId = id <;> simp [hc]

/-- Unfolding the last-match fold one configuration at a time. -/
theorem lastConfigFor_cons (c : PublisherConfiguration)
    (cs : List PublisherConfiguration) (id : Int) :
    lastConfigFor (c :: cs) id =
      match lastConfigFor cs id with
      | some c' => some c'
      | none => if c.rigidBodyId = id then some c else none := by
  rw [lastConfigFor, List.foldl_cons]
  exact lastConfigFor_foldl_seed cs id _

/-- Folding the constructor's insertions over any starting map: the lookup
of an id sees the publisher built from the last matching configuration,
or falls back to the starting map. -/
theorem mapFind_dispatcher_foldl (v : Version) (configs : List PublisherConfiguration)
    (m : List (Int × RigidBodyPublisher)) (id : Int) :
    mapFind
      (configs.foldl
        (fun m' config => mapInsert m' config.rigidBodyId (mkRigidBodyPublisher v config)) m)
      id =
      match lastConfigFor configs id with
      | some c => some (mkRigidBodyPublisher v c)
      | none => mapFind m id := by
  induction configs generalizing m with
  | nil => rfl
  | cons c cs ih =>
    rw [List.foldl_cons, ih, lastConfigFor_cons]
    cases lastConfigFor cs id <;>
      by_cases hc : c.rigidBodyId = id <;>
        simp [hc, mapFind_mapInsert]

/-- The constructor's insertions keep the keys distinct, from any starting
map with distinct keys. -/
theorem nodup_dispatcher_foldl (v : Version) (configs : List PublisherConfiguration)
    (m : List (Int × RigidBodyPublisher)) (h : (mapKeys m).Nodup) :
    (mapKeys
      (configs.foldl
        (fun m' config => mapInsert m' config.rigidBodyId (mkRigidBodyPublisher v config)) m)).Nodup := by
  induction configs generalizing m with
  | nil => exact h
  | cons c cs ih =>
    rw [List.foldl_cons]
    exact ih _ (nodup_mapKeys_mapInsert m c.rigidBodyId (mkRigidBodyPublisher v c) h)

/-- C8: the dispatcher's map holds at most one entry per identifier, and
the entry stored for an identifier is the publisher built from the last
configuration in list order with that identifier; later duplicates
overwrite earlier ones. -/
theorem dispatcher_map_last_config_wins (v : Version)
    (configs : List PublisherConfiguration) :
    (mapKeys (mkRigidBodyPublishDispatcher v configs).rigidBodyPublisherMap).Nodup ∧
    ∀ id : Int,
      mapFind (mkRigidBodyPublishDispatcher v configs).rigidBodyPublisherMap id =
        Option.map (mkRigidBodyPublisher v) (lastConfigFor configs id) := by
  constructor
  · exact nodup_dispatcher_foldl v configs [] (by simp [mapKeys])
  · intro id
    have h := mapFind_dispatcher_foldl v configs [] id
    rw [mkRigidBodyPublishDispatcher]
    rw [h]
    cases lastConfigFor configs id <;> rfl
